import Mathlib

/-!
Shallow embedding of the SCL-HUB user API server.  The persistence-backed
revision of `src/server.js` (Vercel KV store, `getWebflowClient`,
`refreshToken`, the `GET /callback` OAuth handler and the
`POST /create-item` handler with its 401-retry) is embedded as Lean
functions over an explicit server state, and the `firebase-uid` ownership
filter of `GET /api/get-my-clusters` is embedded as a pure function.

Conventions of the embedding:
* The KV store is an association list from string keys to optional string
  values; `kv.get` of an absent key yields `none`, which also stands for a
  stored JS `null`/`undefined` (the program cannot tell these apart).
* A `WebflowClient` instance is identified by the access token it carries,
  so the module-level `client` variable is an `Option String`.
* Every stateful operation returns its result, the new server state and an
  `Effects` record listing the remote calls it made, in program order:
  store reads, store writes, token-endpoint requests and CMS requests are
  all remote operations (the store is a hosted Vercel KV instance).
* The upstream collaborators (token endpoint and CMS) are parameters; the
  CMS reply is a function of the bearer token presented, since the request
  body and collection id are fixed within one request.
* JS string truthiness: `null`/`undefined` and the empty string are falsy.
* A JS `throw` is `Except.error` carrying the error message.
-/

namespace SclHub

instance {ε α : Type} [DecidableEq ε] [DecidableEq α] : DecidableEq (Except ε α) := fun x y =>
  match x, y with
  | .ok a, .ok b =>
    if h : a = b then isTrue (congrArg Except.ok h)
    else isFalse (fun hh => h (Except.ok.inj hh))
  | .error a, .error b =>
    if h : a = b then isTrue (congrArg Except.error h)
    else isFalse (fun hh => h (Except.error.inj hh))
  | .ok _, .error _ => isFalse (fun hh => Except.noConfusion hh)
  | .error _, .ok _ => isFalse (fun hh => Except.noConfusion hh)

/-- JS truthiness of an optional string: `none` (null/undefined) and `""` are falsy. -/
def truthy : Option String → Bool
  | none => false
  | some s => !(s = "")

/-- The Vercel KV store, as an association list where the most recent
binding of a key wins. -/
abbrev Store := List (String × Option String)

/-- `kv.get(k)`: the most recent value bound to `k`, `none` when absent. -/
def Store.get : Store → String → Option String
  | [], _ => none
  | (k', v) :: rest, k => if k' = k then v else Store.get rest k

/-- `kv.set(k, v)`: bind `k` to `v`, shadowing any earlier binding. -/
def Store.set (s : Store) (k : String) (v : Option String) : Store :=
  (k, v) :: s

/-- The module-level mutable state of the server process: the KV store and
the cached `client` variable (`let client = null`), identified by the
access token the `WebflowClient` was built with. -/
structure ServerState where
  kv : Store
  client : Option String
  deriving DecidableEq

/-- A request made to the OAuth token endpoint: either an
authorization-code exchange or a refresh-token grant, identified by the
credential presented. -/
inductive TokenRequest where
  | authCode (code : String)
  | refreshGrant (tok : String)
  deriving DecidableEq

/-- The JSON body of a token-endpoint response, as the fields the program
reads: `access_token`, `refresh_token` and `expires_in` (all optional). -/
structure TokenResponse where
  access_token : Option String
  refresh_token : Option String
  expires_in : Option Nat
  deriving DecidableEq

/-- The remote operations performed by one run of a handler, in program
order.  Store reads and writes count: the store is a remote KV service. -/
structure Effects where
  kvReads : List String
  kvWrites : List (String × Option String)
  tokenCalls : List TokenRequest
  cmsCalls : List String
  deriving DecidableEq

/-- No remote operation. -/
def Effects.empty : Effects := ⟨[], [], [], []⟩

/-- Sequential composition of effect logs. -/
def Effects.app (e f : Effects) : Effects :=
  ⟨e.kvReads ++ f.kvReads, e.kvWrites ++ f.kvWrites,
   e.tokenCalls ++ f.tokenCalls, e.cmsCalls ++ f.cmsCalls⟩

/-- A single KV read. -/
def Effects.kvRead (k : String) : Effects := ⟨[k], [], [], []⟩

/-- A single token-endpoint request. -/
def Effects.tokenCall (r : TokenRequest) : Effects := ⟨[], [], [r], []⟩

/-- A single CMS request carrying the given bearer token. -/
def Effects.cmsCall (tok : String) : Effects := ⟨[], [], [], [tok]⟩

/-- Total number of remote operations of any kind. -/
def Effects.remoteOps (e : Effects) : Nat :=
  e.kvReads.length + e.kvWrites.length + e.tokenCalls.length + e.cmsCalls.length

/-- The external collaborators: the token endpoint's reply to each request,
and the CMS's reply (`Except` = thrown error message) to a create call
carrying a given bearer token. -/
structure Upstream where
  tokenEndpoint : TokenRequest → TokenResponse
  cms : String → Except String String

/-- `getWebflowClient()` of the persistence-backed revision: return the
cached client when one exists, otherwise read the access token from the KV
store, throw `'Webflow API not authenticated.'` when it is falsy, else
cache and return a client built from it. -/
def getWebflowClient (s : ServerState) :
    Except String String × ServerState × Effects :=
  match s.client with
  | some c => (.ok c, s, Effects.empty)
  | none =>
    match s.kv.get "webflow_access_token" with
    | some a =>
      if a = "" then
        (.error "Webflow API not authenticated.", s, Effects.kvRead "webflow_access_token")
      else
        (.ok a, ⟨s.kv, some a⟩, Effects.kvRead "webflow_access_token")
    | none =>
      (.error "Webflow API not authenticated.", s, Effects.kvRead "webflow_access_token")

/-- `refreshToken()`: read the refresh token from the store and throw
`'No refresh token found.'` when it is falsy; otherwise POST a
refresh-token grant to the token endpoint.  When the reply carries a
truthy `access_token`, store it, store the reply's `refresh_token` when
that is truthy, and rebuild the cached client; otherwise only log the
failure and return normally. -/
def refreshToken (up : Upstream) (s : ServerState) :
    Except String Unit × ServerState × Effects :=
  match s.kv.get "webflow_refresh_token" with
  | none => (.error "No refresh token found.", s, Effects.kvRead "webflow_refresh_token")
  | some rt =>
    if rt = "" then
      (.error "No refresh token found.", s, Effects.kvRead "webflow_refresh_token")
    else
      let data := up.tokenEndpoint (.refreshGrant rt)
      match data.access_token with
      | some a =>
        if a = "" then
          (.ok (), s, (Effects.kvRead "webflow_refresh_token").app (Effects.tokenCall (.refreshGrant rt)))
        else
          if truthy data.refresh_token then
            (.ok (),
             ⟨(s.kv.set "webflow_access_token" (some a)).set "webflow_refresh_token" data.refresh_token,
              some a⟩,
             ⟨["webflow_refresh_token"],
              [("webflow_access_token", some a), ("webflow_refresh_token", data.refresh_token)],
              [.refreshGrant rt], []⟩)
          else
            (.ok (),
             ⟨s.kv.set "webflow_access_token" (some a), some a⟩,
             ⟨["webflow_refresh_token"],
              [("webflow_access_token", some a)],
              [.refreshGrant rt], []⟩)
      | none =>
        (.ok (), s, (Effects.kvRead "webflow_refresh_token").app (Effects.tokenCall (.refreshGrant rt)))

/-- The `GET /callback` OAuth handler: without a truthy `code` respond
400 `'Missing code'`; otherwise exchange the code at the token endpoint.
When the reply carries a truthy `access_token`, store it, store the
reply's `refresh_token` unconditionally, rebuild the cached client and
respond 200; otherwise respond 500 `'OAuth failed.'` with no write.  The
HTTP response is a status/body pair. -/
def callbackHandler (up : Upstream) (code : Option String) (s : ServerState) :
    (Nat × String) × ServerState × Effects :=
  if truthy code then
    let c := code.getD ""
    let data := up.tokenEndpoint (.authCode c)
    match data.access_token with
    | some a =>
      if a = "" then
        ((500, "OAuth failed."), s, Effects.tokenCall (.authCode c))
      else
        ((200, "Webflow Authenticated!"),
         ⟨(s.kv.set "webflow_access_token" (some a)).set "webflow_refresh_token" data.refresh_token,
          some a⟩,
         ⟨[],
          [("webflow_access_token", some a), ("webflow_refresh_token", data.refresh_token)],
          [.authCode c], []⟩)
    | none =>
      ((500, "OAuth failed."), s, Effects.tokenCall (.authCode c))
  else
    ((400, "Missing code"), s, Effects.empty)

/-- `needle.isPrefixOf hay` over raw character lists, written out so that
nothing but list recursion is involved. -/
def charsStart : List Char → List Char → Bool
  | [], _ => true
  | _ :: _, [] => false
  | a :: as, b :: bs => a = b && charsStart as bs

/-- `hay` has `needle` as a contiguous run of characters. -/
def charsContain (needle : List Char) : List Char → Bool
  | [] => needle.isEmpty
  | c :: rest => charsStart needle (c :: rest) || charsContain needle rest

/-- JS `hay.includes(needle)`. -/
def strContains (hay needle : String) : Bool :=
  charsContain needle.data hay.data

/-- What the `POST /create-item` handler does for its caller: an HTTP
response (status and body), or an error that escapes the async handler so
that no response is ever sent (an unhandled promise rejection). -/
inductive CreateResult where
  | resp (status : Nat) (body : String)
  | unhandled (err : String)
  deriving DecidableEq

/-- The body of the `try` block of `POST /create-item`, and likewise of
its retry: `getWebflowClient()` followed by `wf.items.create(...)` with
the client's bearer token; either step may throw. -/
def createItemAttempt (up : Upstream) (s : ServerState) :
    Except String String × ServerState × Effects :=
  match getWebflowClient s with
  | (.error e, s1, eff) => (.error e, s1, eff)
  | (.ok tok, s1, eff) =>
    match up.cms tok with
    | .ok body => (.ok body, s1, eff.app (Effects.cmsCall tok))
    | .error e => (.error e, s1, eff.app (Effects.cmsCall tok))

/-- The `POST /create-item` handler: attempt the create; on an error whose
message contains `'401'`, run `refreshToken()` (an error thrown there is
not caught and escapes the handler), rebuild the client and retry the
create exactly once (an error of the retry also escapes); on any other
error respond 500 with the message. -/
def createItemHandler (up : Upstream) (s : ServerState) :
    CreateResult × ServerState × Effects :=
  match createItemAttempt up s with
  | (.ok body, s1, eff) => (.resp 200 body, s1, eff)
  | (.error e, s1, eff) =>
    if strContains e "401" then
      match refreshToken up s1 with
      | (.error re, s2, eff2) => (.unhandled re, s2, eff.app eff2)
      | (.ok _, s2, eff2) =>
        match createItemAttempt up s2 with
        | (.ok body, s3, eff3) => (.resp 200 body, s3, (eff.app eff2).app eff3)
        | (.error e2, s3, eff3) => (.unhandled e2, s3, (eff.app eff2).app eff3)
    else
      (.resp 500 e, s1, eff)

/-!
Interleaving model for concurrent `POST /create-item` requests.  Node's
event loop runs each handler as a sequence of blocks separated by `await`
points; a schedule serialises the blocks of the competing handlers.  A
session is advanced in three coarse blocks — the first attempt, the
`refreshToken()` call inside the catch, and the retry — each block being a
contiguous run of the handler's fine-grained steps, so every schedule of
these blocks is one of the real event-loop schedules. -/

/-- Where one `POST /create-item` session currently stands. -/
inductive Phase where
  | start
  | caught (err : String)
  | retrying
  | done (r : CreateResult)
  deriving DecidableEq

/-- Advance one session by one block against the shared server state,
also reporting the remote calls the block made. -/
def stepPhase (up : Upstream) (p : Phase) (s : ServerState) :
    Phase × ServerState × Effects :=
  match p with
  | .start =>
    match createItemAttempt up s with
    | (.ok body, s1, eff) => (.done (.resp 200 body), s1, eff)
    | (.error e, s1, eff) => (.caught e, s1, eff)
  | .caught e =>
    if strContains e "401" then
      match refreshToken up s with
      | (.error re, s1, eff) => (.done (.unhandled re), s1, eff)
      | (.ok _, s1, eff) => (.retrying, s1, eff)
    else
      (.done (.resp 500 e), s, Effects.empty)
  | .retrying =>
    match createItemAttempt up s with
    | (.ok body, s1, eff) => (.done (.resp 200 body), s1, eff)
    | (.error e, s1, eff) => (.done (.unhandled e), s1, eff)
  | .done r => (.done r, s, Effects.empty)

/-- Two concurrent `POST /create-item` sessions `a` and `b` over the shared
server state, with the accumulated log of every remote call either made. -/
structure TwoWorld where
  s : ServerState
  a : Phase
  b : Phase
  log : Effects
  deriving DecidableEq

/-- Run one block of session `a` (`who = true`) or `b` (`who = false`). -/
def stepWorld (up : Upstream) (w : TwoWorld) (who : Bool) : TwoWorld :=
  if who then
    match stepPhase up w.a w.s with
    | (p, s1, eff) => ⟨s1, p, w.b, w.log.app eff⟩
  else
    match stepPhase up w.b w.s with
    | (p, s1, eff) => ⟨s1, w.a, p, w.log.app eff⟩

/-- Run a schedule, a serialisation of the two sessions' blocks. -/
def runSched (up : Upstream) (w : TwoWorld) : List Bool → TwoWorld
  | [] => w
  | who :: rest => runSched up (stepWorld up w who) rest

/-!
The `GET /api/get-my-clusters` handler (identical filter logic in every
revision): require a truthy `uid` query parameter, list the collection's
items from the CMS, and return the items whose
`fieldData['firebase-uid']` strictly equals `uid`.  The CMS's item list is
a parameter; the authenticated-client plumbing has no bearing on the
filter and is left out of this function. -/

/-- A CMS item, as the handler reads it: its `fieldData` object, a map
from field slugs to string values. -/
structure Item where
  fieldData : List (String × String)
  deriving DecidableEq

/-- `item.fieldData['firebase-uid']`: `none` is JS `undefined`. -/
def Item.uidField (i : Item) : Option String :=
  match i.fieldData.find? (fun p => p.1 = "firebase-uid") with
  | some p => some p.2
  | none => none

/-- The handler's outcome: a 400 error or the JSON list of items. -/
inductive ClustersResult where
  | badRequest (msg : String)
  | ok (items : List Item)
  deriving DecidableEq

/-- `GET /api/get-my-clusters`: reject a falsy `uid` with 400, else filter
the upstream item list by strict equality of `fieldData['firebase-uid']`
with `uid` (a missing field, JS `undefined`, is never `===` to a string). -/
def getMyClusters (uid : Option String) (items : List Item) : ClustersResult :=
  if truthy uid then
    .ok (items.filter (fun i => i.uidField = some (uid.getD "")))
  else
    .badRequest "UID is required."

/-!
Concrete scenario states and upstream behaviours used by the theorems
below.  Token names are parameters where a statement is general and the
literals `T1`/`R1`/... where it is a concrete run.
-/

/-- A store holding access token `t` and refresh token `r`, with no client
cached yet: the steady state right after a process restart. -/
def storedTokens (t r : String) : ServerState :=
  ⟨[("webflow_access_token", some t), ("webflow_refresh_token", some r)], none⟩

/-- Upstream for the racing-refresh runs: the CMS rejects the stale token
`t1` with a 401 and accepts any other token; the token endpoint answers a
grant of `r1` with the pair `(t2, r2)` and a grant of `r2` with
`(t3, r3)` — each refresh mints fresh credentials. -/
def raceUpstream (t1 r1 t2 r2 t3 r3 : String) : Upstream :=
  { tokenEndpoint := fun r =>
      match r with
      | .refreshGrant t =>
        if t = r1 then ⟨some t2, some r2, none⟩
        else if t = r2 then ⟨some t3, some r3, none⟩
        else ⟨none, none, none⟩
      | .authCode _ => ⟨none, none, none⟩,
    cms := fun t =>
      if t = t1 then .error "Request failed with status code 401"
      else .ok ("item-" ++ t) }

/-- Two `POST /create-item` sessions about to start over a freshly
restarted process holding the stale pair `(t1, r1)`. -/
def raceWorld (t1 r1 : String) : TwoWorld :=
  ⟨storedTokens t1 r1, .start, .start, Effects.empty⟩

/-- The schedule in which both sessions observe the 401 of the stale token
before either refreshes, and each then completes its catch block and its
retry in turn. -/
def raceSched : List Bool := [true, false, true, true, false, false]

/-- Upstream whose token endpoint rejects every request (a reply without
`access_token`) while the CMS rejects the stale token `T1` with a 401. -/
def upRejectRefresh : Upstream :=
  { tokenEndpoint := fun _ => ⟨none, none, none⟩,
    cms := fun t =>
      if t = "T1" then .error "Request failed with status code 401"
      else .ok ("item-" ++ t) }

/-- A state whose store has an access token but no refresh token, with the
client already cached. -/
def noRefreshState : ServerState :=
  ⟨[("webflow_access_token", some "T1")], some "T1"⟩

/-- The state of a process that has never been authorized: empty store,
no cached client. -/
def emptyState : ServerState := ⟨[], none⟩

/-- Upstream whose token endpoint accepts exactly the authorization code
`abc`, answering with the pair `(T1, R1)` and the given `expires_in`. -/
def upAuthCode (e : Option Nat) : Upstream :=
  { tokenEndpoint := fun r =>
      match r with
      | .authCode c => if c = "abc" then ⟨some "T1", some "R1", e⟩ else ⟨none, none, none⟩
      | .refreshGrant _ => ⟨none, none, none⟩,
    cms := fun _ => .ok "x" }

/-- A cluster item owned by firebase uid `u1`. -/
def itemA : Item := ⟨[("name", "alpha"), ("firebase-uid", "u1")]⟩

/-- A cluster item owned by firebase uid `u2`. -/
def itemB : Item := ⟨[("name", "beta"), ("firebase-uid", "u2")]⟩

/-- A cluster item with no `firebase-uid` field at all. -/
def itemC : Item := ⟨[("name", "gamma")]⟩

/-- Replace the `expires_in` field of every token-endpoint reply of an
upstream by a fixed value, leaving its `access_token` and `refresh_token`
fields and its CMS behaviour untouched.  Used to state that the handlers
never consult `expires_in`. -/
def setExpiry (e : Option Nat) (up : Upstream) : Upstream :=
  { tokenEndpoint := fun r =>
      ⟨(up.tokenEndpoint r).access_token, (up.tokenEndpoint r).refresh_token, e⟩,
    cms := up.cms }

/-! Helper lemmas about the store and the 401 check. -/

theorem Store.get_set_same (s : Store) (k : String) (v : Option String) :
    (s.set k v).get k = v := by
  simp [Store.set, Store.get]

theorem Store.get_set_other (s : Store) (k k' : String) (v : Option String)
    (h : k ≠ k') : (s.set k v).get k' = s.get k' := by
  simp [Store.set, Store.get, h]

theorem contains401 :
    strContains "Request failed with status code 401" "401" = true := by decide

/-- C10: once the process has a client cached, `getWebflowClient()`
returns exactly that client and performs no remote operation at all — it
does not read the persistent store.  Hence any external change to the
store, such as clearing the stored access token (the store `k` below is
arbitrary, including one with no `webflow_access_token` binding), is not
observed by the running process, which keeps serving the cached token. -/
theorem C10_cached_client_wins (s : ServerState) (c : String) (k : Store)
    (h : s.client = some c) :
    getWebflowClient s = (.ok c, s, Effects.empty) ∧
    getWebflowClient ⟨k, some c⟩ = (.ok c, ⟨k, some c⟩, Effects.empty) := by
  refine ⟨?_, rfl⟩
  unfold getWebflowClient
  rw [h]

theorem C10_cached_client_wins_witness :
    getWebflowClient noRefreshState = (.ok "T1", noRefreshState, Effects.empty) ∧
    getWebflowClient ⟨[], some "T1"⟩ = (.ok "T1", ⟨[], some "T1"⟩, Effects.empty) :=
  C10_cached_client_wins noRefreshState "T1" [] rfl

/-- C9: whenever `GET /api/get-my-clusters` answers a list `L` for a
truthy `uid` and an upstream item list, `L` is exactly the filter of the
upstream items by `fieldData['firebase-uid'] = uid`: it is a sublist of
the upstream list (upstream order preserved), every item in it carries
that uid, and every upstream item carrying that uid is in it — items of
other uids are never included. -/
theorem C9_ownership_filter (u : String) (items L : List Item)
    (hu : u ≠ "") (hres : getMyClusters (some u) items = .ok L) :
    L = items.filter (fun i => i.uidField = some u) ∧
    L.Sublist items ∧
    (∀ i ∈ L, i.uidField = some u) ∧
    (∀ i ∈ items, i.uidField = some u → i ∈ L) := by
  unfold getMyClusters at hres
  simp [truthy, hu] at hres
  subst hres
  refine ⟨rfl, List.filter_sublist items, ?_, ?_⟩
  · intro i hi
    have := (List.mem_filter.mp hi).2
    exact of_decide_eq_true this
  · intro i hi h
    exact List.mem_filter.mpr ⟨hi, decide_eq_true h⟩

theorem C9_ownership_filter_witness :
    [itemA] = [itemA, itemB, itemC].filter (fun i => i.uidField = some "u1") ∧
    List.Sublist [itemA] [itemA, itemB, itemC] ∧
    (∀ i ∈ [itemA], i.uidField = some "u1") ∧
    (∀ i ∈ [itemA, itemB, itemC], i.uidField = some "u1" → i ∈ [itemA]) :=
  C9_ownership_filter "u1" [itemA, itemB, itemC] [itemA] (by decide) (by decide)

/-- C5: when the token endpoint rejects the authorization-code exchange
(a reply whose `access_token` is falsy), the `GET /callback` handler
responds 500 `'OAuth failed.'`, the server state — stored record and
cached client alike — is exactly what it was before the call, and no
field of the persisted record is written. -/
theorem C5_invalid_code_no_write (up : Upstream) (s : ServerState) (c : String)
    (hc : c ≠ "")
    (hfail : truthy (up.tokenEndpoint (.authCode c)).access_token = false) :
    (callbackHandler up (some c) s).1 = (500, "OAuth failed.") ∧
    (callbackHandler up (some c) s).2.1 = s ∧
    (callbackHandler up (some c) s).2.2.kvWrites = [] := by
  unfold callbackHandler
  cases hA : (up.tokenEndpoint (.authCode c)).access_token with
  | none => simp [truthy, hc, hA, Effects.tokenCall]
  | some a =>
    have ha : a = "" := by
      rw [hA] at hfail
      simpa [truthy] using hfail
    simp [truthy, hc, hA, ha, Effects.tokenCall]

theorem C5_invalid_code_no_write_witness :
    (callbackHandler (upAuthCode none) (some "bad") emptyState).1 = (500, "OAuth failed.") ∧
    (callbackHandler (upAuthCode none) (some "bad") emptyState).2.1 = emptyState ∧
    (callbackHandler (upAuthCode none) (some "bad") emptyState).2.2.kvWrites = [] :=
  C5_invalid_code_no_write (upAuthCode none) emptyState "bad" (by decide) (by decide)

/-- C4: a `GET /callback` with a truthy code that the token endpoint
accepts responds 200, persists the exchanged record (the stored access
token is the exchanged one, the stored refresh token is the reply's) and
caches a client built from the exchanged access token; a subsequent
`getWebflowClient()` then returns exactly that access token, leaves the
state unchanged (so every later call behaves the same), and performs no
remote operation of any kind — no store read, no token-endpoint request,
no CMS request. -/
theorem C4_authorization_caches_token (up : Upstream) (s : ServerState)
    (c t1 : String) (rt : Option String) (e : Option Nat)
    (hc : c ≠ "") (ht1 : t1 ≠ "")
    (hep : up.tokenEndpoint (.authCode c) = ⟨some t1, rt, e⟩) :
    (callbackHandler up (some c) s).1 = (200, "Webflow Authenticated!") ∧
    (callbackHandler up (some c) s).2.1.kv.get "webflow_access_token" = some t1 ∧
    (callbackHandler up (some c) s).2.1.kv.get "webflow_refresh_token" = rt ∧
    (callbackHandler up (some c) s).2.1.client = some t1 ∧
    getWebflowClient (callbackHandler up (some c) s).2.1 =
      (.ok t1, (callbackHandler up (some c) s).2.1, Effects.empty) := by
  unfold callbackHandler
  simp [truthy, hc, hep, ht1, Store.get_set_same, Store.get_set_other,
    getWebflowClient]

theorem C4_authorization_caches_token_witness :
    (callbackHandler (upAuthCode (some 3600)) (some "abc") emptyState).1
      = (200, "Webflow Authenticated!") ∧
    (callbackHandler (upAuthCode (some 3600)) (some "abc") emptyState).2.1.kv.get
      "webflow_access_token" = some "T1" ∧
    (callbackHandler (upAuthCode (some 3600)) (some "abc") emptyState).2.1.kv.get
      "webflow_refresh_token" = some "R1" ∧
    (callbackHandler (upAuthCode (some 3600)) (some "abc") emptyState).2.1.client
      = some "T1" ∧
    getWebflowClient (callbackHandler (upAuthCode (some 3600)) (some "abc") emptyState).2.1 =
      (.ok "T1", (callbackHandler (upAuthCode (some 3600)) (some "abc") emptyState).2.1,
       Effects.empty) :=
  C4_authorization_caches_token (upAuthCode (some 3600)) emptyState "abc" "T1"
    (some "R1") (some 3600) (by decide) (by decide) (by decide)

/-- C3: a refresh whose reply carries a new access token and a new refresh
token replaces the persisted record in full — the stored access token
becomes the reply's access token and the stored refresh token becomes the
reply's refresh token, not the one presented — exactly one refresh request
reaches the token endpoint, the rebuilt cached client carries the new
access token, and the next `getWebflowClient()` returns it. -/
theorem C3_refresh_replaces_record (up : Upstream) (s : ServerState)
    (r1 t2 r2 : String) (e : Option Nat)
    (hstored : s.kv.get "webflow_refresh_token" = some r1) (hr1 : r1 ≠ "")
    (hep : up.tokenEndpoint (.refreshGrant r1) = ⟨some t2, some r2, e⟩)
    (ht2 : t2 ≠ "") (hr2 : r2 ≠ "") :
    (refreshToken up s).1 = .ok () ∧
    (refreshToken up s).2.1.kv.get "webflow_access_token" = some t2 ∧
    (refreshToken up s).2.1.kv.get "webflow_refresh_token" = some r2 ∧
    (refreshToken up s).2.1.client = some t2 ∧
    (refreshToken up s).2.2.tokenCalls = [.refreshGrant r1] ∧
    getWebflowClient (refreshToken up s).2.1 =
      (.ok t2, (refreshToken up s).2.1, Effects.empty) := by
  unfold refreshToken
  simp [hstored, hr1, hep, ht2, truthy, hr2, Store.get_set_same,
    Store.get_set_other, getWebflowClient]

theorem C3_refresh_replaces_record_witness :
    (refreshToken (raceUpstream "T1" "R1" "T2" "R2" "T3" "R3") (storedTokens "T1" "R1")).1
      = .ok () ∧
    (refreshToken (raceUpstream "T1" "R1" "T2" "R2" "T3" "R3") (storedTokens "T1" "R1")).2.1.kv.get
      "webflow_access_token" = some "T2" ∧
    (refreshToken (raceUpstream "T1" "R1" "T2" "R2" "T3" "R3") (storedTokens "T1" "R1")).2.1.kv.get
      "webflow_refresh_token" = some "R2" ∧
    (refreshToken (raceUpstream "T1" "R1" "T2" "R2" "T3" "R3") (storedTokens "T1" "R1")).2.1.client
      = some "T2" ∧
    (refreshToken (raceUpstream "T1" "R1" "T2" "R2" "T3" "R3") (storedTokens "T1" "R1")).2.2.tokenCalls
      = [.refreshGrant "R1"] ∧
    getWebflowClient (refreshToken (raceUpstream "T1" "R1" "T2" "R2" "T3" "R3") (storedTokens "T1" "R1")).2.1 =
      (.ok "T2",
       (refreshToken (raceUpstream "T1" "R1" "T2" "R2" "T3" "R3") (storedTokens "T1" "R1")).2.1,
       Effects.empty) :=
  C3_refresh_replaces_record (raceUpstream "T1" "R1" "T2" "R2" "T3" "R3")
    (storedTokens "T1" "R1") "R1" "T2" "R2" none (by decide) (by decide)
    (by decide) (by decide) (by decide)

/-- C6: when an upstream CMS call fails with an error message containing
`'401'` — regardless of any local expiry bookkeeping, of which the code
keeps none — the `POST /create-item` handler immediately attempts a
refresh (exactly one refresh request reaches the token endpoint) and
retries the CMS call exactly once, presenting the freshly minted access
token; with the fresh token accepted, the caller receives the created
item. -/
theorem C6_upstream_401_refresh_retry (up : Upstream) (s : ServerState)
    (t1 r1 t2 r2 body em : String) (e : Option Nat)
    (hcl : s.client = some t1)
    (hcms1 : up.cms t1 = .error em) (h401 : strContains em "401" = true)
    (hstored : s.kv.get "webflow_refresh_token" = some r1) (hr1 : r1 ≠ "")
    (hep : up.tokenEndpoint (.refreshGrant r1) = ⟨some t2, some r2, e⟩)
    (ht2 : t2 ≠ "") (hr2 : r2 ≠ "")
    (hcms2 : up.cms t2 = .ok body) :
    (createItemHandler up s).1 = .resp 200 body ∧
    (createItemHandler up s).2.2.tokenCalls = [.refreshGrant r1] ∧
    (createItemHandler up s).2.2.cmsCalls = [t1, t2] := by
  unfold createItemHandler createItemAttempt
  simp [getWebflowClient, hcl, hcms1, h401, refreshToken, hstored, hr1, hep,
    ht2, truthy, hr2, hcms2, Effects.app, Effects.empty, Effects.cmsCall,
    Effects.kvRead, Effects.tokenCall]

theorem C6_upstream_401_refresh_retry_witness :
    (createItemHandler (raceUpstream "T1" "R1" "T2" "R2" "T3" "R3")
      ⟨(storedTokens "T1" "R1").kv, some "T1"⟩).1 = .resp 200 ("item-" ++ "T2") ∧
    (createItemHandler (raceUpstream "T1" "R1" "T2" "R2" "T3" "R3")
      ⟨(storedTokens "T1" "R1").kv, some "T1"⟩).2.2.tokenCalls = [.refreshGrant "R1"] ∧
    (createItemHandler (raceUpstream "T1" "R1" "T2" "R2" "T3" "R3")
      ⟨(storedTokens "T1" "R1").kv, some "T1"⟩).2.2.cmsCalls = ["T1", "T2"] :=
  C6_upstream_401_refresh_retry (raceUpstream "T1" "R1" "T2" "R2" "T3" "R3")
    ⟨(storedTokens "T1" "R1").kv, some "T1"⟩ "T1" "R1" "T2" "R2"
    ("item-" ++ "T2") "Request failed with status code 401" none rfl
    (by decide) (by decide) (by decide) (by decide) (by decide) (by decide)
    (by decide) (by decide)

/-- C2: evaluation of `POST /create-item` at the failing input — stored
record `(T1, R1)` with `T1` rejected 401 by the CMS and the refresh grant
rejected by the token endpoint (a reply without `access_token`).
`refreshToken()` merely logs the rejection and returns normally, so the
handler retries the CMS call presenting the old invalid access token `T1`
again (the CMS is called twice with `T1`), the stored record and cached
client are left as they were, and the caller receives no
reauthorization-style signal: the retry's 401 error escapes the handler
as an unhandled rejection. -/
theorem C2_refresh_failure_swallowed :
    (createItemHandler upRejectRefresh (storedTokens "T1" "R1")).1
      = .unhandled "Request failed with status code 401" ∧
    (createItemHandler upRejectRefresh (storedTokens "T1" "R1")).2.2.cmsCalls
      = ["T1", "T1"] ∧
    (createItemHandler upRejectRefresh (storedTokens "T1" "R1")).2.2.tokenCalls
      = [.refreshGrant "R1"] ∧
    (createItemHandler upRejectRefresh (storedTokens "T1" "R1")).2.1.kv
      = (storedTokens "T1" "R1").kv ∧
    (createItemHandler upRejectRefresh (storedTokens "T1" "R1")).2.1.client
      = some "T1" := by decide

/-- C7 counterexample: with an access token but no refresh token stored,
the refresh path of the token lifecycle does fail with
`'No refresh token found.'`, but it is not free of remote calls — it
performs a remote read of the persistent store, so the claim that no
remote endpoint is contacted is false at this input. -/
theorem C7_counterexample :
    ¬ ((refreshToken upRejectRefresh noRefreshState).1
         = .error "No refresh token found." ∧
       (refreshToken upRejectRefresh noRefreshState).2.2.remoteOps = 0) := by decide

/-- C7 amended: with no truthy refresh token in the store, `refreshToken()`
throws `'No refresh token found.'`, contacts neither the token endpoint
nor the CMS, and leaves the state untouched; it does, however, perform
exactly one remote operation — the persistent-store read that looked the
refresh token up. -/
theorem C7_refresh_without_token (up : Upstream) (s : ServerState)
    (h : truthy (s.kv.get "webflow_refresh_token") = false) :
    (refreshToken up s).1 = .error "No refresh token found." ∧
    (refreshToken up s).2.1 = s ∧
    (refreshToken up s).2.2.tokenCalls = [] ∧
    (refreshToken up s).2.2.cmsCalls = [] ∧
    (refreshToken up s).2.2.remoteOps = 1 := by
  unfold refreshToken
  cases hE : s.kv.get "webflow_refresh_token" with
  | none => simp [hE, Effects.kvRead, Effects.remoteOps]
  | some rt =>
    have hrt : rt = "" := by
      rw [hE] at h
      simpa [truthy] using h
    simp [hE, hrt, Effects.kvRead, Effects.remoteOps]

theorem C7_refresh_without_token_witness :
    (refreshToken upRejectRefresh noRefreshState).1
      = .error "No refresh token found." ∧
    (refreshToken upRejectRefresh noRefreshState).2.1 = noRefreshState ∧
    (refreshToken upRejectRefresh noRefreshState).2.2.tokenCalls = [] ∧
    (refreshToken upRejectRefresh noRefreshState).2.2.cmsCalls = [] ∧
    (refreshToken upRejectRefresh noRefreshState).2.2.remoteOps = 1 :=
  C7_refresh_without_token upRejectRefresh noRefreshState (by decide)

/-- C8 counterexample: an authorization-code exchange whose reply carries
`expires_in = 3600` persists exactly the two token bindings — no expiry
instant — and produces an outcome identical, state, writes, response and
all, to the same exchange with `expires_in` absent: no
`expires_at = now + expires_in` is computed or stored. -/
theorem C8_counterexample :
    callbackHandler (upAuthCode (some 3600)) (some "abc") emptyState
      = callbackHandler (upAuthCode none) (some "abc") emptyState ∧
    (callbackHandler (upAuthCode (some 3600)) (some "abc") emptyState).2.2.kvWrites
      = [("webflow_access_token", some "T1"), ("webflow_refresh_token", some "R1")] := by
  decide

/-- C8 amended: the `GET /callback` handler never consults `expires_in`:
replacing the `expires_in` of every token-endpoint reply by an arbitrary
value changes nothing in its outcome, and every key it ever writes is one
of the two token keys — no expiry is tracked, so invalidity can only be
discovered by observing an authorization failure on use. -/
theorem C8_expiry_never_tracked (up : Upstream) (e : Option Nat)
    (code : Option String) (s : ServerState) :
    callbackHandler (setExpiry e up) code s = callbackHandler up code s ∧
    ∀ p ∈ (callbackHandler up code s).2.2.kvWrites,
      p.1 = "webflow_access_token" ∨ p.1 = "webflow_refresh_token" := by
  cases code with
  | none => simp [callbackHandler, truthy, Effects.empty]
  | some c =>
    by_cases hc : c = ""
    · simp [callbackHandler, truthy, hc, Effects.empty]
    · cases hA : up.tokenEndpoint (.authCode c) with
      | mk a r ei =>
        cases a with
        | none => simp [callbackHandler, truthy, hc, setExpiry, hA, Effects.tokenCall]
        | some av =>
          by_cases hav : av = ""
          · simp [callbackHandler, truthy, hc, setExpiry, hA, hav, Effects.tokenCall]
          · simp [callbackHandler, truthy, hc, setExpiry, hA, hav, Effects.tokenCall]

/-- C1 counterexample: two concurrent `POST /create-item` sessions over the
expired record `(T1, R1)`, scheduled so that both observe the 401 of the
stale token before either refreshes — a schedule the code, which has no
single-flight mechanism, permits.  It is false that exactly one refresh
request reaches the token endpoint and that both callers end the same:
two refresh requests are sent and the callers obtain different access
tokens. -/
theorem C1_counterexample :
    ¬ (((runSched (raceUpstream "T1" "R1" "T2" "R2" "T3" "R3")
          (raceWorld "T1" "R1") raceSched).log.tokenCalls.length = 1) ∧
       (runSched (raceUpstream "T1" "R1" "T2" "R2" "T3" "R3")
          (raceWorld "T1" "R1") raceSched).a
         = (runSched (raceUpstream "T1" "R1" "T2" "R2" "T3" "R3")
            (raceWorld "T1" "R1") raceSched).b) := by decide

/-- C1 amended: with no single-flight mechanism in the code, concurrent
callers that both observe the expired token each trigger their own
refresh.  Under the schedule in which both sessions see the 401 of the
stale token `t1` before either refreshes, two refresh requests reach the
token endpoint — the first presenting the stored `r1`, the second
presenting the `r2` the first refresh just stored — the CMS is called
four times (`t1` twice, then each session's own fresh token), and each
caller receives the item minted with the token of its own refresh, `t2`
for one and `t3` for the other. -/
theorem C1_racing_refreshes (t1 r1 t2 r2 t3 r3 : String)
    (h1 : t1 ≠ "") (h2 : t2 ≠ "") (h3 : t3 ≠ "")
    (h4 : r1 ≠ "") (h5 : r2 ≠ "") (h6 : r3 ≠ "")
    (h7 : t2 ≠ t1) (h8 : t3 ≠ t1) (h9 : r2 ≠ r1) :
    (runSched (raceUpstream t1 r1 t2 r2 t3 r3) (raceWorld t1 r1) raceSched).log.tokenCalls
      = [.refreshGrant r1, .refreshGrant r2] ∧
    (runSched (raceUpstream t1 r1 t2 r2 t3 r3) (raceWorld t1 r1) raceSched).log.cmsCalls
      = [t1, t1, t2, t3] ∧
    (runSched (raceUpstream t1 r1 t2 r2 t3 r3) (raceWorld t1 r1) raceSched).a
      = .done (.resp 200 ("item-" ++ t2)) ∧
    (runSched (raceUpstream t1 r1 t2 r2 t3 r3) (raceWorld t1 r1) raceSched).b
      = .done (.resp 200 ("item-" ++ t3)) := by
  simp [raceSched, runSched, stepWorld, stepPhase, createItemAttempt,
    getWebflowClient, refreshToken, raceUpstream, raceWorld, storedTokens,
    Store.get, Store.set, truthy, contains401, Effects.app, Effects.empty,
    Effects.kvRead, Effects.tokenCall, Effects.cmsCall,
    h1, h2, h3, h4, h5, h6, h7, h8, h9]

theorem C1_racing_refreshes_witness :
    (runSched (raceUpstream "T1" "R1" "T2" "R2" "T3" "R3")
      (raceWorld "T1" "R1") raceSched).log.tokenCalls
      = [.refreshGrant "R1", .refreshGrant "R2"] ∧
    (runSched (raceUpstream "T1" "R1" "T2" "R2" "T3" "R3")
      (raceWorld "T1" "R1") raceSched).log.cmsCalls
      = ["T1", "T1", "T2", "T3"] ∧
    (runSched (raceUpstream "T1" "R1" "T2" "R2" "T3" "R3")
      (raceWorld "T1" "R1") raceSched).a
      = .done (.resp 200 ("item-" ++ "T2")) ∧
    (runSched (raceUpstream "T1" "R1" "T2" "R2" "T3" "R3")
      (raceWorld "T1" "R1") raceSched).b
      = .done (.resp 200 ("item-" ++ "T3")) :=
  C1_racing_refreshes "T1" "R1" "T2" "R2" "T3" "R3" (by decide) (by decide)
    (by decide) (by decide) (by decide) (by decide) (by decide) (by decide)
    (by decide)

end SclHub
